import Mathlib

/-!
Shallow embedding of the voice-call turn pipeline in `src/main.py`.

The webhook handler `process` sequences four external operations per
conversational turn (audio download, speech-to-text, dialogue generation,
text-to-speech), stores the synthesized audio as a static artifact, and
returns a telephony instruction document.  The embedding models the
handler as a pure function of the webhook event, the responses of the
external backends for this turn (each `none` when the corresponding call
raised), and the random token drawn for artifact naming.  Invocation of
each backend and every stored artifact are recorded in the result so that
properties about which stages run can be stated.
-/

namespace VoiceAgent

/-- Audio payloads are byte sequences. -/
abbrev Audio := List Nat

/-- One TwiML directive as the handlers build them: `resp.say`,
`resp.play`, `resp.record(action, timeout, play_beep)`, `resp.redirect`. -/
inductive Directive where
  | say (text : String)
  | play (url : String)
  | record (action : String) (timeout : Nat) (playBeep : Bool)
  | redirect (url : String)
deriving DecidableEq, Repr

/-- A telephony instruction document: the ordered list of directives of
one `VoiceResponse`. -/
abbrev Instruction := List Directive

/-- `true` when the instruction contains a redirect directive. -/
def containsRedirect (i : Instruction) : Bool :=
  i.any fun d => match d with
    | .redirect _ => true
    | _ => false

/-- `true` when the instruction contains a play directive. -/
def containsPlay (i : Instruction) : Bool :=
  i.any fun d => match d with
    | .play _ => true
    | _ => false

/-- `true` when the instruction contains a record directive. -/
def containsRecord (i : Instruction) : Bool :=
  i.any fun d => match d with
    | .record _ _ _ => true
    | _ => false

/-- The fields of the `recording-ready` webhook form read by `process`:
`form.get("RecordingUrl")` and `form.get("CallSid", "unknown")`. -/
structure WebhookEvent where
  recordingUrl : Option String
  callSidField : Option String
deriving DecidableEq, Repr

/-- The responses of the four external backends for one turn, as seen at
the call sites in `process`.  `none` models the Python call raising an
exception (transport failure); for the text-to-speech call a returned
response carries its HTTP status code and body bytes. -/
structure Backends where
  fetchResult : Option Audio
  sttResult : Option String
  llmResult : Option String
  ttsResult : Option (Nat × Audio)
deriving DecidableEq, Repr

/-- The fixed degraded-mode reply substituted when the dialogue backend
fails (`llm_resp` in the exception branch of stage 3). -/
def degradedReply : String := "I am having trouble thinking right now."

/-- Artifact name built in stage 4:
`f"response_\x7bcall_sid\x7d_\x7buuid.uuid4().hex[:6]\x7d.mp3"`. -/
def fileName (callSid token : String) : String :=
  "response_" ++ callSid ++ "_" ++ token ++ ".mp3"

/-- What one run of the `process` handler produced: the returned
instruction, which backends were invoked, the reply text handed to the
synthesizer when it was invoked, and the artifacts written to the static
directory. -/
structure TurnResult where
  instruction : Instruction
  fetchCalled : Bool
  sttCalled : Bool
  llmCalled : Bool
  ttsCalled : Bool
  ttsInput : Option String
  storedArtifacts : List (String × Audio)
deriving DecidableEq, Repr

/-- The `process` webhook handler of `src/main.py`, stage by stage.
`baseUrl` is the `BASE_URL` configuration value and `token` the value of
`uuid.uuid4().hex[:6]` drawn in stage 4.  Missing recording reference
answers goodbye; failed download answers a connection error; a failed or
empty transcription answers a re-record prompt redirecting to `/voice`;
a failed dialogue call substitutes the degraded reply; a failed or
non-200 synthesis call answers a fixed apology; on full success the
synthesized bytes are stored under a fresh name and the instruction plays
the artifact then records the next utterance. -/
def process (baseUrl : String) (ev : WebhookEvent) (b : Backends) (token : String) :
    TurnResult :=
  let callSid := ev.callSidField.getD "unknown"
  match ev.recordingUrl with
  | none =>
      { instruction := [.say "I didn\x27t hear anything. Goodbye."]
        fetchCalled := false, sttCalled := false, llmCalled := false
        ttsCalled := false, ttsInput := none, storedArtifacts := [] }
  | some _ =>
      match b.fetchResult with
      | none =>
          { instruction := [.say "Connection error. Goodbye."]
            fetchCalled := true, sttCalled := false, llmCalled := false
            ttsCalled := false, ttsInput := none, storedArtifacts := [] }
      | some _wavData =>
          let transcript := b.sttResult.getD ""
          if transcript = "" then
            { instruction := [.say "I didn\x27t catch that. Please say it again.",
                              .redirect (baseUrl ++ "/voice")]
              fetchCalled := true, sttCalled := true, llmCalled := false
              ttsCalled := false, ttsInput := none, storedArtifacts := [] }
          else
            let llmResp := b.llmResult.getD degradedReply
            match b.ttsResult with
            | none =>
                { instruction := [.say "Sorry, I encountered an error."]
                  fetchCalled := true, sttCalled := true, llmCalled := true
                  ttsCalled := true, ttsInput := some llmResp, storedArtifacts := [] }
            | some (status, bytes) =>
                if status ≠ 200 then
                  { instruction := [.say "Sorry, I encountered an error."]
                    fetchCalled := true, sttCalled := true, llmCalled := true
                    ttsCalled := true, ttsInput := some llmResp, storedArtifacts := [] }
                else
                  let fn := fileName callSid token
                  { instruction := [.play (baseUrl ++ "/static/" ++ fn),
                                    .record (baseUrl ++ "/process") 2 true]
                    fetchCalled := true, sttCalled := true, llmCalled := true
                    ttsCalled := true, ttsInput := some llmResp
                    storedArtifacts := [(fn, bytes)] }

/-- The `/voice` handler of `src/main.py`: the fixed greeting instruction
speaking the welcome phrase then recording the next utterance. -/
def voiceInstruction (baseUrl : String) : Instruction :=
  [.say "Hello. I am your AI assistant. Please speak after the beep.",
   .record (baseUrl ++ "/process") 2 true]

/-- The static artifact directory contents, as (name, bytes) pairs. -/
abbrev Store := List (String × Audio)

/-- `process` run against an existing artifact store: the handler never
reads the store, and its only write is appending the artifacts of this
turn. -/
def processWithStore (σ : Store) (baseUrl : String) (ev : WebhookEvent)
    (b : Backends) (token : String) : Instruction × Store :=
  let r := process baseUrl ev b token
  (r.instruction, σ ++ r.storedArtifacts)

/-- An external HTTP call as issued in `process`, keeping the request
target and the `timeout` argument passed to the HTTP layer (`none` when
the source passes no timeout argument). -/
structure HttpCall where
  url : String
  timeout : Option Nat
deriving DecidableEq, Repr

/-- Stage 1: `requests.get(f"\x7baudio_url\x7d.wav", auth=(TWILIO_SID, TWILIO_TOKEN))`,
no timeout argument. -/
def fetchCall (audioUrl : String) : HttpCall :=
  { url := audioUrl ++ ".wav", timeout := none }

/-- Stage 2: `requests.post("https://api.deepgram.com/v1/listen?...", ...)`,
no timeout argument. -/
def sttCall : HttpCall :=
  { url := "https://api.deepgram.com/v1/listen?model=nova-2&smart_format=true"
    timeout := none }

/-- Stage 3: `groq_client.chat.completions.create(...)`, called with only
model and messages, no timeout argument. -/
def llmCall : HttpCall :=
  { url := "groq:chat.completions.create", timeout := none }

/-- Stage 4: `requests.post("https://api.cartesia.ai/tts/bytes", ...)`,
no timeout argument. -/
def ttsCall : HttpCall :=
  { url := "https://api.cartesia.ai/tts/bytes", timeout := none }

/-- C1: for a recording-ready event carrying a recording reference, when
the audio fetch, transcription (non-empty transcript), dialogue
generation, and speech synthesis all succeed, the returned instruction is
exactly a play directive for the stored artifact public URL followed by a
record-next-utterance directive, and that artifact is the one stored. -/
theorem turn_success_plays_then_records
    (baseUrl : String) (ev : WebhookEvent) (b : Backends) (token : String)
    (url : String) (hrec : ev.recordingUrl = some url)
    (wav : Audio) (hf : b.fetchResult = some wav)
    (t : String) (hstt : b.sttResult = some t) (ht : t ≠ "")
    (r : String) (hllm : b.llmResult = some r)
    (bytes : Audio) (htts : b.ttsResult = some (200, bytes)) :
    (process baseUrl ev b token).instruction
      = [.play (baseUrl ++ "/static/"
                  ++ fileName (ev.callSidField.getD "unknown") token),
         .record (baseUrl ++ "/process") 2 true]
    ∧ (process baseUrl ev b token).storedArtifacts
      = [(fileName (ev.callSidField.getD "unknown") token, bytes)] := by
  simp [process, hrec, hf, hstt, hllm, htts, ht]

/-- Witness for C1 at a concrete fully successful turn. -/
theorem turn_success_plays_then_records_witness :
    (process "B" ⟨some "u", some "CA"⟩
        ⟨some [0], some "hi", some "ok", some (200, [5])⟩ "t0").instruction
      = [.play ("B" ++ "/static/" ++ fileName "CA" "t0"),
         .record ("B" ++ "/process") 2 true]
    ∧ (process "B" ⟨some "u", some "CA"⟩
        ⟨some [0], some "hi", some "ok", some (200, [5])⟩ "t0").storedArtifacts
      = [(fileName "CA" "t0", [5])] :=
  turn_success_plays_then_records "B" ⟨some "u", some "CA"⟩
    ⟨some [0], some "hi", some "ok", some (200, [5])⟩ "t0"
    "u" rfl [0] rfl "hi" rfl (by decide) "ok" rfl [5] rfl

/-- C2 counterexample: on an event with no recording reference the handler
answers a terminal goodbye, not a redirect-to-greet instruction; the
instruction contains no redirect and no record directive. -/
theorem missing_recording_no_redirect_cex :
    (process "B" ⟨none, some "CA"⟩ ⟨none, none, none, none⟩ "t0").instruction
      = [.say "I didn\x27t hear anything. Goodbye."]
    ∧ containsRedirect
        (process "B" ⟨none, some "CA"⟩ ⟨none, none, none, none⟩ "t0").instruction
      = false
    ∧ containsRecord
        (process "B" ⟨none, some "CA"⟩ ⟨none, none, none, none⟩ "t0").instruction
      = false := ⟨rfl, rfl, rfl⟩

/-- C2 amended: when the recording reference is absent the handler returns
exactly the terminal say-goodbye instruction (no redirect, no record
directive), and none of the fetch, transcriber, dialogue, or synthesizer
backends is invoked. -/
theorem missing_recording_goodbye
    (baseUrl : String) (ev : WebhookEvent) (b : Backends) (token : String)
    (h : ev.recordingUrl = none) :
    (process baseUrl ev b token).instruction
      = [.say "I didn\x27t hear anything. Goodbye."]
    ∧ containsRedirect (process baseUrl ev b token).instruction = false
    ∧ containsRecord (process baseUrl ev b token).instruction = false
    ∧ (process baseUrl ev b token).fetchCalled = false
    ∧ (process baseUrl ev b token).sttCalled = false
    ∧ (process baseUrl ev b token).llmCalled = false
    ∧ (process baseUrl ev b token).ttsCalled = false := by
  simp [process, h, containsRedirect, containsRecord]

/-- Witness for the amended C2 at a concrete event without a recording
reference. -/
theorem missing_recording_goodbye_witness :
    (process "B" ⟨none, some "CA"⟩ ⟨none, none, none, none⟩ "t1").instruction
      = [.say "I didn\x27t hear anything. Goodbye."]
    ∧ containsRedirect
        (process "B" ⟨none, some "CA"⟩ ⟨none, none, none, none⟩ "t1").instruction
      = false
    ∧ containsRecord
        (process "B" ⟨none, some "CA"⟩ ⟨none, none, none, none⟩ "t1").instruction
      = false
    ∧ (process "B" ⟨none, some "CA"⟩ ⟨none, none, none, none⟩ "t1").fetchCalled = false
    ∧ (process "B" ⟨none, some "CA"⟩ ⟨none, none, none, none⟩ "t1").sttCalled = false
    ∧ (process "B" ⟨none, some "CA"⟩ ⟨none, none, none, none⟩ "t1").llmCalled = false
    ∧ (process "B" ⟨none, some "CA"⟩ ⟨none, none, none, none⟩ "t1").ttsCalled = false :=
  missing_recording_goodbye "B" ⟨none, some "CA"⟩ ⟨none, none, none, none⟩ "t1" rfl

/-- C6: when the audio download fails with a transport error, the handler
answers the connection-error message; the instruction is terminal (no
record and no redirect directive) and no later stage is invoked. -/
theorem fetch_failure_terminal
    (baseUrl : String) (ev : WebhookEvent) (b : Backends) (token : String)
    (url : String) (hrec : ev.recordingUrl = some url)
    (hf : b.fetchResult = none) :
    (process baseUrl ev b token).instruction = [.say "Connection error. Goodbye."]
    ∧ containsRecord (process baseUrl ev b token).instruction = false
    ∧ containsRedirect (process baseUrl ev b token).instruction = false
    ∧ (process baseUrl ev b token).sttCalled = false
    ∧ (process baseUrl ev b token).llmCalled = false
    ∧ (process baseUrl ev b token).ttsCalled = false := by
  simp [process, hrec, hf, containsRecord, containsRedirect]

/-- Witness for C6 at a concrete turn whose download raises. -/
theorem fetch_failure_terminal_witness :
    (process "B" ⟨some "u", some "CA"⟩ ⟨none, none, none, none⟩ "t2").instruction
      = [.say "Connection error. Goodbye."]
    ∧ containsRecord
        (process "B" ⟨some "u", some "CA"⟩ ⟨none, none, none, none⟩ "t2").instruction
      = false
    ∧ containsRedirect
        (process "B" ⟨some "u", some "CA"⟩ ⟨none, none, none, none⟩ "t2").instruction
      = false
    ∧ (process "B" ⟨some "u", some "CA"⟩ ⟨none, none, none, none⟩ "t2").sttCalled = false
    ∧ (process "B" ⟨some "u", some "CA"⟩ ⟨none, none, none, none⟩ "t2").llmCalled = false
    ∧ (process "B" ⟨some "u", some "CA"⟩ ⟨none, none, none, none⟩ "t2").ttsCalled = false :=
  fetch_failure_terminal "B" ⟨some "u", some "CA"⟩ ⟨none, none, none, none⟩ "t2" "u" rfl rfl

/-- C3 counterexample: on a turn whose synthesis backend returns status
500, the reply text handed to synthesis was "hello there", yet the
returned instruction speaks the fixed apology, not the reply text. -/
theorem tts_failure_not_reply_cex :
    (process "B" ⟨some "u", some "CA"⟩
        ⟨some [0], some "hi", some "hello there", some (500, [])⟩ "t3").ttsInput
      = some "hello there"
    ∧ (process "B" ⟨some "u", some "CA"⟩
        ⟨some [0], some "hi", some "hello there", some (500, [])⟩ "t3").instruction
      ≠ [.say "hello there"]
    ∧ (process "B" ⟨some "u", some "CA"⟩
        ⟨some [0], some "hi", some "hello there", some (500, [])⟩ "t3").instruction
      = [.say "Sorry, I encountered an error."] := ⟨rfl, by decide, rfl⟩

/-- C3 amended: when the synthesis call fails (raises, or returns a
non-200 status), the returned instruction speaks the fixed apology text
rather than the reply text, contains no play directive, and no artifact
is stored; the agent is not silenced, since the instruction is a non-empty
say directive. -/
theorem tts_failure_apology
    (baseUrl : String) (ev : WebhookEvent) (b : Backends) (token : String)
    (url : String) (hrec : ev.recordingUrl = some url)
    (wav : Audio) (hf : b.fetchResult = some wav)
    (t : String) (hstt : b.sttResult = some t) (ht : t ≠ "")
    (hfail : b.ttsResult = none
      ∨ ∃ st bytes, b.ttsResult = some (st, bytes) ∧ st ≠ 200) :
    (process baseUrl ev b token).instruction = [.say "Sorry, I encountered an error."]
    ∧ (process baseUrl ev b token).storedArtifacts = []
    ∧ containsPlay (process baseUrl ev b token).instruction = false := by
  rcases hfail with htts | ⟨st, bytes, htts, hst⟩
  · simp [process, hrec, hf, hstt, ht, htts, containsPlay]
  · simp [process, hrec, hf, hstt, ht, htts, hst, containsPlay]

/-- Witness for the amended C3 at a concrete turn with a 500 synthesis
status. -/
theorem tts_failure_apology_witness :
    (process "B" ⟨some "u", some "CA"⟩
        ⟨some [0], some "hi", some "hello there", some (500, [])⟩ "t4").instruction
      = [.say "Sorry, I encountered an error."]
    ∧ (process "B" ⟨some "u", some "CA"⟩
        ⟨some [0], some "hi", some "hello there", some (500, [])⟩ "t4").storedArtifacts
      = []
    ∧ containsPlay
        (process "B" ⟨some "u", some "CA"⟩
          ⟨some [0], some "hi", some "hello there", some (500, [])⟩ "t4").instruction
      = false :=
  tts_failure_apology "B" ⟨some "u", some "CA"⟩
    ⟨some [0], some "hi", some "hello there", some (500, [])⟩ "t4"
    "u" rfl [0] rfl "hi" rfl (by decide)
    (Or.inr ⟨500, [], rfl, by decide⟩)

/-- C4: when the transcript is empty — the STT backend returned an
explicit empty string, or the STT stage raised and was mapped to empty —
the dialogue and synthesizer backends are never invoked and the returned
instruction prompts and redirects to the greet-and-record handler, whose
instruction records the next utterance. -/
theorem empty_transcript_rerecords
    (baseUrl : String) (ev : WebhookEvent) (b : Backends) (token : String)
    (url : String) (hrec : ev.recordingUrl = some url)
    (wav : Audio) (hf : b.fetchResult = some wav)
    (hstt : b.sttResult = some "" ∨ b.sttResult = none) :
    (process baseUrl ev b token).llmCalled = false
    ∧ (process baseUrl ev b token).ttsCalled = false
    ∧ (process baseUrl ev b token).instruction
      = [.say "I didn\x27t catch that. Please say it again.",
         .redirect (baseUrl ++ "/voice")]
    ∧ containsRecord (voiceInstruction baseUrl) = true := by
  rcases hstt with hstt | hstt
  · simp [process, hrec, hf, hstt, voiceInstruction, containsRecord]
  · simp [process, hrec, hf, hstt, voiceInstruction, containsRecord]

/-- Witness for C4 at a concrete turn whose STT stage raised. -/
theorem empty_transcript_rerecords_witness :
    (process "B" ⟨some "u", some "CA"⟩ ⟨some [0], none, none, none⟩ "t5").llmCalled = false
    ∧ (process "B" ⟨some "u", some "CA"⟩ ⟨some [0], none, none, none⟩ "t5").ttsCalled = false
    ∧ (process "B" ⟨some "u", some "CA"⟩ ⟨some [0], none, none, none⟩ "t5").instruction
      = [.say "I didn\x27t catch that. Please say it again.",
         .redirect ("B" ++ "/voice")]
    ∧ containsRecord (voiceInstruction "B") = true :=
  empty_transcript_rerecords "B" ⟨some "u", some "CA"⟩ ⟨some [0], none, none, none⟩ "t5"
    "u" rfl [0] rfl (Or.inr rfl)

/-- C5: on a turn with a non-empty transcript whose dialogue backend
fails, the reply text equals the fixed degraded-mode string and the
synthesizer is still invoked with exactly that string. -/
theorem llm_failure_degraded_reply
    (baseUrl : String) (ev : WebhookEvent) (b : Backends) (token : String)
    (url : String) (hrec : ev.recordingUrl = some url)
    (wav : Audio) (hf : b.fetchResult = some wav)
    (t : String) (hstt : b.sttResult = some t) (ht : t ≠ "")
    (hllm : b.llmResult = none) :
    (process baseUrl ev b token).ttsCalled = true
    ∧ (process baseUrl ev b token).ttsInput = some degradedReply
    ∧ degradedReply = "I am having trouble thinking right now." := by
  refine ⟨?_, ?_, rfl⟩ <;>
  · rcases htts : b.ttsResult with _ | ⟨st, bytes⟩
    · simp [process, hrec, hf, hstt, ht, hllm, htts]
    · by_cases hst : st = 200 <;>
        simp [process, hrec, hf, hstt, ht, hllm, htts, hst]

/-- Witness for C5 at a concrete turn whose dialogue backend raised. -/
theorem llm_failure_degraded_reply_witness :
    (process "B" ⟨some "u", some "CA"⟩
        ⟨some [0], some "hi", none, some (200, [5])⟩ "t6").ttsCalled = true
    ∧ (process "B" ⟨some "u", some "CA"⟩
        ⟨some [0], some "hi", none, some (200, [5])⟩ "t6").ttsInput = some degradedReply
    ∧ degradedReply = "I am having trouble thinking right now." :=
  llm_failure_degraded_reply "B" ⟨some "u", some "CA"⟩
    ⟨some [0], some "hi", none, some (200, [5])⟩ "t6"
    "u" rfl [0] rfl "hi" rfl (by decide) rfl

/-- C7 counterexample: two store invocations for the same call reference
with different payloads generate the very same artifact name whenever the
two random tokens coincide — the 6-hex-digit token drawn by each
invocation is random, not guaranteed fresh, so unconditional distinctness
fails. -/
theorem store_same_token_collides_cex :
    (process "B" ⟨some "u", some "CA"⟩
        ⟨some [0], some "hi", some "ok", some (200, [1])⟩ "0f3a2b").storedArtifacts.map
        Prod.fst
      = (process "B" ⟨some "u", some "CA"⟩
          ⟨some [0], some "hi", some "ok", some (200, [2])⟩ "0f3a2b").storedArtifacts.map
          Prod.fst
    ∧ ([1] : Audio) ≠ [2]
    ∧ (process "B" ⟨some "u", some "CA"⟩
        ⟨some [0], some "hi", some "ok", some (200, [1])⟩ "0f3a2b").storedArtifacts.map
        Prod.fst
      = [fileName "CA" "0f3a2b"] := ⟨rfl, by decide, rfl⟩

/-- C7 amended: two generated artifact names are distinct whenever the two
random tokens differ or the call references differ, for tokens of equal
length (the source always draws 6 hex digits); with the same call
reference and the same token the names coincide. -/
theorem fileName_inj
    (c₁ c₂ t₁ t₂ : String) (hlen : t₁.length = t₂.length)
    (h : c₁ ≠ c₂ ∨ t₁ ≠ t₂) : fileName c₁ t₁ ≠ fileName c₂ t₂ := by
  intro heq
  have hdata : ((("response_" ++ c₁).data ++ "_".data) ++ t₁.data) ++ ".mp3".data
      = ((("response_" ++ c₂).data ++ "_".data) ++ t₂.data) ++ ".mp3".data :=
    congrArg String.data heq
  have h1 : (("response_" ++ c₁).data ++ "_".data) ++ t₁.data
      = (("response_" ++ c₂).data ++ "_".data) ++ t₂.data :=
    List.append_cancel_right hdata
  have h2 := List.append_inj' h1 hlen
  have hc : c₁.data = c₂.data :=
    List.append_cancel_left
      (List.append_cancel_right h2.1 : ("response_" ++ c₁).data = ("response_" ++ c₂).data)
  have ht : t₁.data = t₂.data := h2.2
  rcases h with h | h
  · exact h (by cases c₁; cases c₂; exact congrArg String.mk hc)
  · exact h (by cases t₁; cases t₂; exact congrArg String.mk ht)

/-- Witness for the amended C7: distinct call references with equal-length
tokens give distinct names. -/
theorem fileName_inj_witness :
    ("0f3a2b" : String).length = ("0f3a2b" : String).length
    ∧ fileName "CA1" "0f3a2b" ≠ fileName "CA2" "0f3a2b" :=
  ⟨rfl, fileName_inj "CA1" "CA2" "0f3a2b" "0f3a2b" rfl (Or.inl (by decide))⟩

/-- C8: the turn handler reads no cross-request state and writes only by
appending this turn artifacts: the returned instruction is the same
whatever artifact store the process started with, and the resulting store
is the incoming one extended with exactly the artifacts computed from the
current event, backend responses, and token alone. -/
theorem process_stateless
    (σ₁ σ₂ : Store) (baseUrl : String) (ev : WebhookEvent) (b : Backends)
    (token : String) :
    (processWithStore σ₁ baseUrl ev b token).1
      = (processWithStore σ₂ baseUrl ev b token).1
    ∧ (processWithStore σ₁ baseUrl ev b token).2
      = σ₁ ++ (process baseUrl ev b token).storedArtifacts
    ∧ (processWithStore σ₁ baseUrl ev b token).1
      = (process baseUrl ev b token).instruction := ⟨rfl, rfl, rfl⟩

/-- C9: none of the four external calls issued during a turn carries an
explicit timeout — the source passes no timeout argument to the audio
download, the STT request, the dialogue request, or the TTS request. -/
theorem external_calls_carry_no_timeout (audioUrl : String) :
    (fetchCall audioUrl).timeout = none
    ∧ sttCall.timeout = none
    ∧ llmCall.timeout = none
    ∧ ttsCall.timeout = none := ⟨rfl, rfl, rfl, rfl⟩

/-- C10 counterexample: when the dialogue backend succeeds but returns an
empty reply, the synthesis stage is invoked with the empty string — the
code never checks the successful reply for emptiness. -/
theorem empty_reply_reaches_tts_cex :
    (process "B" ⟨some "u", some "CA"⟩
        ⟨some [0], some "hi", some "", some (200, [5])⟩ "t7").ttsCalled = true
    ∧ (process "B" ⟨some "u", some "CA"⟩
        ⟨some [0], some "hi", some "", some (200, [5])⟩ "t7").ttsInput
      = some "" := ⟨rfl, rfl⟩

/-- C10 amended: whenever the synthesis stage is invoked, the reply text
it receives is non-empty, provided the dialogue backend did not
successfully return an empty reply; in particular the fallback substituted
on dialogue failure is the fixed non-empty degraded-mode string. -/
theorem tts_input_nonempty
    (baseUrl : String) (ev : WebhookEvent) (b : Backends) (token : String)
    (hne : b.llmResult ≠ some "") :
    ∀ s, (process baseUrl ev b token).ttsInput = some s → s ≠ "" := by
  intro s hs
  have hfall : b.llmResult.getD degradedReply ≠ "" := by
    rcases hllm : b.llmResult with _ | r
    · simp [degradedReply]
    · simpa using fun h => hne (hllm.trans (by simp [h]))
  rcases hrec : ev.recordingUrl with _ | u
  · simp [process, hrec] at hs
  · rcases hf : b.fetchResult with _ | wav
    · simp [process, hrec, hf] at hs
    · by_cases ht : b.sttResult.getD "" = ""
      · simp [process, hrec, hf, ht] at hs
      · rcases htts : b.ttsResult with _ | ⟨st, bytes⟩
        · simp [process, hrec, hf, ht, htts] at hs
          exact hs ▸ hfall
        · by_cases hst : st = 200 <;>
            · simp [process, hrec, hf, ht, htts, hst] at hs
              exact hs ▸ hfall

/-- Witness for the amended C10 at a concrete turn whose dialogue backend
raised, so the synthesizer receives the degraded-mode reply. -/
theorem tts_input_nonempty_witness :
    (⟨some [0], some "hi", none, some (200, [5])⟩ : Backends).llmResult ≠ some ""
    ∧ degradedReply ≠ "" :=
  ⟨by decide,
   tts_input_nonempty "B" ⟨some "u", some "CA"⟩
     ⟨some [0], some "hi", none, some (200, [5])⟩ "t8" (by decide)
     degradedReply rfl⟩

end VoiceAgent
